import Mathlib

/-!
Verification of the feedback-triage-bot core against its specification.

We shallowly embed the Python modules `triage_state.py`, `triage_core.py`,
`jira_client.py`, `ai_client.py` and the relevant flow of `web/server.py`.
JSON documents (the per-message state files and API payloads) are embedded
as the inductive `JVal`; Python dicts become association lists with
first-occurrence lookup and in-place update, which matches Python dict
semantics for documents whose keys are unique (every document the code
builds).  Timestamps are threaded explicitly: each write operation takes the
string the source would obtain from `_utc_now()` as a `now` parameter.
-/

/-- Embedded JSON value (the documents are plain JSON on disk). -/
inductive JVal where
  | str (s : String)
  | num (n : Int)
  | bool (b : Bool)
  | null
  | arr (xs : List JVal)
  | obj (fields : List (String × JVal))

/-- A JSON object body / Python dict: ordered key-value pairs. -/
abbrev JDict := List (String × JVal)

/-- Python `d.get(k)`: the value at the first occurrence of the key. -/
def lookupKey : JDict → String → Option JVal
  | [], _ => none
  | (k', v) :: rest, k => if k' = k then some v else lookupKey rest k

/-- Python `d[k] = v`: overwrite the first occurrence in place, else append. -/
def setKey : JDict → String → JVal → JDict
  | [], k, v => [(k, v)]
  | (k', v') :: rest, k, v =>
      if k' = k then (k, v) :: rest else (k', v') :: setKey rest k v

/-- Python `d.setdefault(k, v)`: insert only when the key is absent. -/
def setDefaultKey (d : JDict) (k : String) (v : JVal) : JDict :=
  if (lookupKey d k).isSome then d else d ++ [(k, v)]

/-- Python truthiness of a JSON value. -/
def truthy : JVal → Bool
  | .str s => !s.isEmpty
  | .num n => n != 0
  | .bool b => b
  | .null => false
  | .arr xs => !xs.isEmpty
  | .obj fs => !fs.isEmpty

/-- The left-brace character, named once. -/
def lbrace : Char := '\x7b'

/-- The right-brace character, named once. -/
def rbrace : Char := '\x7d'

/-- Whitespace for Python `str.strip()` and the JSON grammar. -/
def isWsChar (c : Char) : Bool :=
  c = ' ' || c = '\t' || c = '\n' || c = '\r'

/-- Python `str.strip()` on a character list. -/
def pyStrip (l : List Char) : List Char :=
  ((l.dropWhile isWsChar).reverse.dropWhile isWsChar).reverse

/-- Python `str.strip()` on a string. -/
def pyStripStr (s : String) : String :=
  String.mk (pyStrip s.data)

/-- Python `repr` of a JSON value, as used by `str` on non-string values.
Container renderings use Python list/dict syntax; string reprs use single
quotes.  (Escape refinements inside reprs are irrelevant here: no rendering
of a container or quoted string is ever a recognized status word.) -/
def pyRepr : JVal → String
  | .str s => "\x27" ++ s ++ "\x27"
  | .num n => toString n
  | .bool b => if b then "True" else "False"
  | .null => "None"
  | .arr xs => "[" ++ String.intercalate ", " (xs.attach.map fun v => pyRepr v.1) ++ "]"
  | .obj fs =>
      "\x7b" ++
        String.intercalate ", "
          (fs.attach.map fun kv => "\x27" ++ kv.1.1 ++ "\x27: " ++ pyRepr kv.1.2) ++
      "\x7d"
decreasing_by
  all_goals
    simp_wf
  · have := List.sizeOf_lt_of_mem v.2
    omega
  · have := List.sizeOf_lt_of_mem kv.2
    have h2 : sizeOf kv.1.2 < sizeOf kv.1 := by
      cases kv.1; simp
    omega

/-- Python `str(v)`: identity on strings, `repr`-style on everything else. -/
def pyStr : JVal → String
  | .str s => s
  | v => pyRepr v

/-! ## triage_state.py -/

/-- `save_state` (triage_state.py:38): sets `email_id` if absent and stamps
`updated_at`; the filesystem write itself is outside the embedding. -/
def save_state (email_id : String) (state : JDict) (now : String) : JDict :=
  setKey (setDefaultKey state "email_id" (.str email_id)) "updated_at" (.str now)

/-- The alias-table branch of `set_status` (triage_state.py:69-77), applied
to the stripped requested status `s`. -/
def setStatusNormalized (e : JDict) (s now : String) : JDict :=
  if s = "todo" ∨ s = "pending" then setKey e "status" (.str "pending")
  else if s = "skip" ∨ s = "ignore" then setKey e "status" (.str "ignore")
  else if s = "done" ∨ s = "jira" ∨ s = "processed" then
    setDefaultKey (setKey e "status" (.str "processed")) "processed_at" (.str now)
  else setKey e "status" (.str "pending")

/-- `set_status` (triage_state.py:49): normalizes the requested status through
the legacy-alias table, overwrites `status`, sets `processed_at` the first
time the result is processed, optionally records `reason`.  `existing` is
the loaded state (`load_state(...) or {}`). -/
def set_status (email_id status reason : String) (existing : Option JDict)
    (now : String) : JDict :=
  let e := existing.getD []
  let e := setStatusNormalized e (pyStripStr status) now
  let e := if reason ≠ "" then setKey e "reason" (.str reason) else e
  save_state email_id e now

/-- `mark_processed` (triage_state.py:83): overwrites `status` and assigns
`processed_at` unconditionally. -/
def mark_processed (email_id : String) (existing : Option JDict) (now : String) : JDict :=
  let e := existing.getD []
  let e := setKey e "status" (.str "processed")
  let e := setKey e "processed_at" (.str now)
  save_state email_id e now

/-- `mark_ignore` (triage_state.py:90): overwrites `status` with `ignore`. -/
def mark_ignore (email_id : String) (existing : Option JDict) (now : String) : JDict :=
  let e := existing.getD []
  let e := setKey e "status" (.str "ignore")
  save_state email_id e now

/-- `set_jira_link` (triage_state.py:96): stores the `jira` sub-record, forces
`status` to processed and sets `processed_at` only when absent. -/
def set_jira_link (email_id jira_key jira_url : String) (existing : Option JDict)
    (now : String) : JDict :=
  let e := existing.getD []
  let e := setKey e "jira"
    (.obj [("key", .str jira_key), ("url", .str jira_url), ("created_at", .str now)])
  let e := setKey e "status" (.str "processed")
  let e := setDefaultKey e "processed_at" (.str now)
  save_state email_id e now

/-- The raw status string of a stored document:
`str(state.get("status") or "")` (triage_state.py:129). -/
def rawStatusStr (d : JDict) : String :=
  match lookupKey d "status" with
  | some v => if truthy v then pyStr v else ""
  | none => ""

/-- The alias-normalization chain of `processing_status`
(triage_state.py:129-138), applied to the stripped raw status string. -/
def normalizeStatus (s1 : String) : String :=
  let s := if s1 = "" then "pending" else s1
  if s = "pending" ∨ s = "processed" ∨ s = "ignore" then s
  else if s = "todo" then "pending"
  else if s = "done" ∨ s = "jira" then "processed"
  else if s = "skip" then "ignore"
  else "pending"

/-- `processing_status` (triage_state.py:115): the normalized outward status;
raw storage may hold legacy values and the accessor normalizes them.  An
absent document and the empty dict (falsy in Python) both read as
pending. -/
def processing_status (state : Option JDict) : String :=
  match state with
  | none => "pending"
  | some d =>
    if d.isEmpty then "pending"
    else normalizeStatus (pyStripStr (rawStatusStr d))

/-- The `ai` sub-record stored by `upsert_ai_result`. -/
def aiRecord (decision reason : String) (raw : Option JDict) (now : String) : JVal :=
  .obj [("decision", .str decision), ("reason", .str reason),
        ("raw", .obj (raw.getD [])), ("parsed_at", .str now)]

/-- `upsert_ai_result` (triage_state.py:141): stores the AI sub-record and
sets the status to pending/ignore, never touching an already-processed
status. -/
def upsert_ai_result (email_id decision reason : String) (raw : Option JDict)
    (existing : Option JDict) (now : String) : JDict :=
  let e := existing.getD []
  let e := setKey e "ai" (aiRecord decision reason raw now)
  let cur := processing_status (some e)
  if cur = "processed" then save_state email_id e now
  else if decision = "ignore" then
    save_state email_id (setKey e "status" (.str "ignore")) now
  else
    save_state email_id (setKey e "status" (.str "pending")) now

/-- `upsert_jira_draft` (triage_state.py:171): stores/overwrites the
`jira_draft` sub-record without touching the status. -/
def upsert_jira_draft (email_id issue_type_name summary description : String)
    (labels : List String) (existing : Option JDict) (now : String) : JDict :=
  let e := existing.getD []
  let e := setKey e "jira_draft"
    (.obj [("issue_type_name", .str issue_type_name), ("summary", .str summary),
           ("description", .str description), ("labels", .arr (labels.map .str)),
           ("generated_at", .str now)])
  save_state email_id e now

/-- Modelled from the spec: `upsert_reply_draft` is imported from
`triage_state` by `web/server.py` and called by the reply-generation route,
but its definition is not present in the sources.  Per the spec (§3, §4.4)
it stores/overwrites the `reply_draft` sub-record
`{language, reply, reply_zh, generated_at}` and does not affect `status`;
like every `triage_state` write it goes through `save_state`. -/
def upsert_reply_draft (email_id language reply reply_zh : String)
    (existing : Option JDict) (now : String) : JDict :=
  let e := existing.getD []
  let e := setKey e "reply_draft"
    (.obj [("language", .str language), ("reply", .str reply),
           ("reply_zh", .str reply_zh), ("generated_at", .str now)])
  save_state email_id e now

/-! ## triage_core.py -/

/-- Does `w` occur in `t` (Python substring containment, `w in t`)? -/
def occursIn (w : List Char) : List Char → Bool
  | [] => w.isEmpty
  | c :: rest => w.isPrefixOf (c :: rest) || occursIn w rest

/-- Python `w in t` on strings. -/
def pyIn (w t : String) : Bool := occursIn w.data t.data

/-- `BUG_WORDS` (triage_core.py:26). -/
def BUG_WORDS : List String :=
  ["bug", "crash", "freeze", "hang", "stuck", "not working", "doesn\x27t work",
   "broken", "error", "exception", "traceback", "fail", "failed", "failure",
   "issue", "can\x27t", "cannot", "unable", "won\x27t", "does not", "wrong"]

/-- `FEATURE_WORDS` (triage_core.py:50). -/
def FEATURE_WORDS : List String :=
  ["feature", "request", "could you", "can you add", "please add", "wishlist",
   "support", "would be great", "enhancement", "improve", "improvement"]

/-- `QUESTION_WORDS` (triage_core.py:64). -/
def QUESTION_WORDS : List String :=
  ["how do i", "how to", "what is", "where is", "can i", "is it possible",
   "question", "help", "why"]

/-- `ACCOUNT_WORDS` (triage_core.py:76). -/
def ACCOUNT_WORDS : List String :=
  ["login", "log in", "sign in", "sign-in", "account", "subscription",
   "billing", "refund", "payment", "charge", "invoice", "receipt", "plan",
   "upgrade", "cancel"]

/-- `P0_WORDS` (triage_core.py:94). -/
def P0_WORDS : List String :=
  ["data loss", "lost emails", "lost mail", "security", "breach", "leak",
   "cannot access", "locked out", "account hacked"]

/-- `P1_WORDS` (triage_core.py:106). -/
def P1_WORDS : List String :=
  ["crash", "freeze", "hang", "stuck", "cannot send", "can\x27t send",
   "cannot receive", "can\x27t receive", "urgent", "immediately", "asap"]

/-- `P2_WORDS` (triage_core.py:120). -/
def P2_WORDS : List String :=
  ["slow", "lag", "delay", "sometimes", "intermittent", "occasionally"]

/-- `classify` (triage_core.py:241): fixed precedence, account/billing first. -/
def classify (text : String) : String :=
  if ACCOUNT_WORDS.any (fun w => pyIn w text) then "account_support"
  else if BUG_WORDS.any (fun w => pyIn w text) then "bug"
  else if FEATURE_WORDS.any (fun w => pyIn w text) then "feature_request"
  else if QUESTION_WORDS.any (fun w => pyIn w text) then "question"
  else "other"

/-- `priority` (triage_core.py:255): fixed precedence, P0 first, default P3. -/
def priorityOf (text : String) : String :=
  if P0_WORDS.any (fun w => pyIn w text) then "P0"
  else if P1_WORDS.any (fun w => pyIn w text) then "P1"
  else if P2_WORDS.any (fun w => pyIn w text) then "P2"
  else "P3"

/-- `upsert_triage_fields` (triage_core.py:356): loads any existing triage
artifact, replaces only classification/priority and the ticket draft's
summary/description/labels, keeps every other field, persists.  `existing`
is the loaded document (missing or unreadable file gives `none`). -/
def upsert_triage_fields (email_id classification priority_value jira_summary
    jira_description : String) (jira_labels : List String)
    (existing0 : Option JDict) : JDict :=
  let existing := existing0.getD []
  let e1 := setKey existing "email_id"
    (match lookupKey existing "email_id" with
     | some v => if truthy v then v else .str email_id
     | none => .str email_id)
  let e2 := setKey e1 "classification" (.str classification)
  let e3 := setKey e2 "priority" (.str priority_value)
  let jira := match lookupKey e3 "jira" with
    | some (.obj kvs) => kvs
    | _ => []
  let j1 := setKey jira "summary" (.str jira_summary)
  let j2 := setKey j1 "description" (.str jira_description)
  let j3 := setKey j2 "labels" (.arr (jira_labels.map .str))
  setKey e3 "jira" (.obj j3)

/-! ## jira_client.py and the ticket-submission flow of web/server.py -/

/-- The error message raised by `create_issue_v2` (jira_client.py:127) on a
non-success response: status code plus the collaborator's raw response
text. -/
def jiraCreateIssueErrorMsg (status_code : Nat) (resp_text : String) : String :=
  "Jira create issue failed (" ++ toString status_code ++ "): " ++ resp_text

/-- `create_issue_v2` (jira_client.py:95), observed at the response boundary:
the collaborator's HTTP status, response text and parsed JSON body are
inputs; a status of 400 or above raises `JiraError` with the message built
by `jiraCreateIssueErrorMsg`, otherwise the parsed body is returned. -/
def create_issue_v2 (status_code : Nat) (resp_text : String) (resp_json : JDict) :
    Except String JDict :=
  if 400 ≤ status_code then .error (jiraCreateIssueErrorMsg status_code resp_text)
  else .ok resp_json

/-- Outcome of one run of the ticket-submission route. -/
inductive JiraFlowOutcome where
  | invalidTransition
  | created (key url : String)
  | failed (msg : String)

/-- Result of the ticket-submission route: outcome, resulting local state,
and whether the create-issue request was sent to the tracker. -/
structure JiraFlowResult where
  outcome : JiraFlowOutcome
  state : JDict
  trackerCalled : Bool

/-- `api_process_jira` (web/server.py:1060), the ticket-submission flow over
the state machine: reject unless the normalized status is pending (before
any tracker call), otherwise call the tracker, require a `key` in its
response, and record the link via `set_jira_link`.  The HTTP framing,
settings lookup and HTML rendering around this flow are presentation-layer
and are not part of the embedding; the tracker collaborator's response is
an input. -/
def api_process_jira (email_id : String) (st : JDict)
    (tracker_status : Nat) (tracker_text : String) (tracker_json : JDict)
    (base_url now : String) : JiraFlowResult :=
  let pstatus := processing_status (some st)
  if pstatus ≠ "pending" then ⟨.invalidTransition, st, false⟩
  else
    match create_issue_v2 tracker_status tracker_text tracker_json with
    | .error msg => ⟨.failed msg, st, true⟩
    | .ok created =>
      let issue_key := match lookupKey created "key" with
        | some v => if truthy v then pyStr v else ""
        | none => ""
      if issue_key = "" then
        ⟨.failed ("Jira response missing key: " ++ pyStr (.obj created)), st, true⟩
      else
        let jira_url := base_url ++ "/browse/" ++ issue_key
        let st2 := set_jira_link email_id issue_key jira_url (some st) now
        ⟨.created issue_key jira_url, st2, true⟩

/-! ## ai_client.py: tolerant JSON extraction

`_extract_json_from_text` calls Python's `json.loads`; we embed `json.loads`
as a fueled recursive-descent parser over the character list.  The fuel is
decremented on every recursive call and any value at least the input length
suffices; `json_loads` passes a generous bound.  JSON numbers are embedded
for integer literals only (a fractional or exponent part makes the parse
fail); no document relevant to the claims carries non-integer numbers. -/

/-- Skip JSON/Python whitespace. -/
def skipWs (cs : List Char) : List Char := cs.dropWhile isWsChar

/-- One hex digit. -/
def hexDigit (c : Char) : Option Nat :=
  if '0' ≤ c ∧ c ≤ '9' then some (c.toNat - '0'.toNat)
  else if 'a' ≤ c ∧ c ≤ 'f' then some (c.toNat - 'a'.toNat + 10)
  else if 'A' ≤ c ∧ c ≤ 'F' then some (c.toNat - 'A'.toNat + 10)
  else none

/-- Body of a JSON string after the opening quote: returns the decoded
characters and the remainder after the closing quote. -/
def parseStringBody : Nat → List Char → Option (List Char × List Char)
  | 0, _ => none
  | _ + 1, [] => none
  | f + 1, c :: rest =>
    if c = '"' then some ([], rest)
    else if c = '\\' then
      match rest with
      | '"' :: r => (parseStringBody f r).map fun p => ('"' :: p.1, p.2)
      | '\\' :: r => (parseStringBody f r).map fun p => ('\\' :: p.1, p.2)
      | '/' :: r => (parseStringBody f r).map fun p => ('/' :: p.1, p.2)
      | 'n' :: r => (parseStringBody f r).map fun p => ('\n' :: p.1, p.2)
      | 't' :: r => (parseStringBody f r).map fun p => ('\t' :: p.1, p.2)
      | 'r' :: r => (parseStringBody f r).map fun p => ('\r' :: p.1, p.2)
      | 'b' :: r => (parseStringBody f r).map fun p => (Char.ofNat 8 :: p.1, p.2)
      | 'f' :: r => (parseStringBody f r).map fun p => (Char.ofNat 12 :: p.1, p.2)
      | 'u' :: h1 :: h2 :: h3 :: h4 :: r =>
        match hexDigit h1, hexDigit h2, hexDigit h3, hexDigit h4 with
        | some a, some b, some c', some d =>
          (parseStringBody f r).map fun p =>
            (Char.ofNat (((a * 16 + b) * 16 + c') * 16 + d) :: p.1, p.2)
        | _, _, _, _ => none
      | _ => none
    else (parseStringBody f rest).map fun p => (c :: p.1, p.2)

/-- A JSON integer literal: optional minus, digits, no leading zero, and no
fractional/exponent continuation. -/
def parseIntLit (cs : List Char) : Option (Int × List Char) :=
  let (neg, cs1) := match cs with
    | '-' :: r => (true, r)
    | _ => (false, cs)
  let digits := cs1.takeWhile (fun c => '0' ≤ c ∧ c ≤ '9')
  let rest := cs1.dropWhile (fun c => '0' ≤ c ∧ c ≤ '9')
  if digits.isEmpty then none
  else if digits.length > 1 ∧ digits.head? = some '0' then none
  else match rest with
    | '.' :: _ => none
    | 'e' :: _ => none
    | 'E' :: _ => none
    | _ =>
      let n : Nat := digits.foldl (fun acc c => acc * 10 + (c.toNat - '0'.toNat)) 0
      some (if neg then -(n : Int) else (n : Int), rest)

mutual

/-- Parse one JSON value; returns it with the unconsumed remainder. -/
def parseJValue : Nat → List Char → Option (JVal × List Char)
  | 0, _ => none
  | f + 1, cs =>
    match skipWs cs with
    | [] => none
    | c :: rest =>
      if c = lbrace then parseObjBody f rest
      else if c = '[' then parseArrBody f rest
      else if c = '"' then
        (parseStringBody (f + 1) rest).map fun p => (.str (String.mk p.1), p.2)
      else match c :: rest with
        | 't' :: 'r' :: 'u' :: 'e' :: r => some (.bool true, r)
        | 'f' :: 'a' :: 'l' :: 's' :: 'e' :: r => some (.bool false, r)
        | 'n' :: 'u' :: 'l' :: 'l' :: r => some (.null, r)
        | cs' => (parseIntLit cs').map fun p => (.num p.1, p.2)

/-- Parse an object body (after the opening brace). -/
def parseObjBody : Nat → List Char → Option (JVal × List Char)
  | 0, _ => none
  | f + 1, cs =>
    match skipWs cs with
    | c :: rest => if c = rbrace then some (.obj [], rest) else parseMembers f cs []
    | [] => none

/-- Parse the members of a non-empty object; a repeated key overwrites the
earlier value in place, as in a Python dict. -/
def parseMembers : Nat → List Char → JDict → Option (JVal × List Char)
  | 0, _, _ => none
  | f + 1, cs, acc =>
    match skipWs cs with
    | '"' :: rest =>
      match parseStringBody f rest with
      | some (key, r1) =>
        match skipWs r1 with
        | ':' :: r2 =>
          match parseJValue f r2 with
          | some (v, r3) =>
            let acc2 := setKey acc (String.mk key) v
            match skipWs r3 with
            | ',' :: r4 => parseMembers f r4 acc2
            | c :: r4 => if c = rbrace then some (.obj acc2, r4) else none
            | [] => none
          | none => none
        | _ => none
      | none => none
    | _ => none

/-- Parse an array body (after the opening bracket). -/
def parseArrBody : Nat → List Char → Option (JVal × List Char)
  | 0, _ => none
  | f + 1, cs =>
    match skipWs cs with
    | ']' :: rest => some (.arr [], rest)
    | _ => parseItems f cs []

/-- Parse the items of a non-empty array. -/
def parseItems : Nat → List Char → List JVal → Option (JVal × List Char)
  | 0, _, _ => none
  | f + 1, cs, acc =>
    match parseJValue f cs with
    | some (v, r) =>
      match skipWs r with
      | ',' :: r2 => parseItems f r2 (acc ++ [v])
      | ']' :: r2 => some (.arr (acc ++ [v]), r2)
      | _ => none
    | none => none

end

/-- Python `json.loads`: parse one value and require only whitespace after
it (otherwise `json.JSONDecodeError` with "Extra data"). -/
def json_loads (cs : List Char) : Option JVal :=
  match parseJValue (2 * cs.length + 4) cs with
  | some (v, rest) => if (skipWs rest).isEmpty then some v else none
  | none => none

/-- How `_extract_json_from_text` can fail.  `emptyResponse` and `notJson`
are the two `AiError` raises (ai_client.py:93 and 101); `decodeError` is a
`json.JSONDecodeError` escaping from `json.loads`, which is not an
`AiError`. -/
inductive ExtractErr where
  | emptyResponse
  | notJson (snippet : String)
  | decodeError

/-- `_extract_json_from_text` (ai_client.py:87): strip the text; parse it
whole when it starts and ends with braces; otherwise slice from the first
left brace to the last right brace (`text.find` / `text.rfind`) and parse
the slice; raise when the text is empty or no such slice exists. -/
def extract_json_from_text (text : List Char) : Except ExtractErr JVal :=
  let t := pyStrip text
  if t.isEmpty then .error .emptyResponse
  else if t.head? = some lbrace ∧ t.getLast? = some rbrace then
    match json_loads t with
    | some v => .ok v
    | none => .error .decodeError
  else
    let a := t.dropWhile (fun c => c ≠ lbrace)
    if rbrace ∈ a then
      let b := (a.reverse.dropWhile (fun c => c ≠ rbrace)).reverse
      match json_loads b with
      | some v => .ok v
      | none => .error .decodeError
    else .error (.notJson (String.mk (t.take 200)))

/-- Modelled from the spec: the "first balanced-looking brace span" scanner
the spec describes (§4.3, design note) — scan to the first left brace, then
take characters until the brace depth returns to zero.  This is the
comparison definition for the refinement claim about
`_extract_json_from_text`; it is not in the source. -/
def takeBalanced : List Char → Nat → List Char → Option (List Char)
  | [], _, _ => none
  | c :: rest, depth, acc =>
    if c = lbrace then takeBalanced rest (depth + 1) (acc ++ [c])
    else if c = rbrace then
      if depth = 1 then some (acc ++ [c]) else takeBalanced rest (depth - 1) (acc ++ [c])
    else takeBalanced rest depth (acc ++ [c])

/-- Modelled from the spec: extract the first balanced brace span of the
stripped text (see `takeBalanced`). -/
def firstBalancedSpan (text : List Char) : Option (List Char) :=
  let t := (pyStrip text).dropWhile (fun c => c ≠ lbrace)
  match t with
  | [] => none
  | _ => takeBalanced t 0 []

/-! ## Association-list lemmas -/

theorem lookupKey_nil (k : String) : lookupKey [] k = none := rfl

theorem lookup_setKey_same (d : JDict) (k : String) (v : JVal) :
    lookupKey (setKey d k v) k = some v := by
  induction d with
  | nil => simp [setKey, lookupKey]
  | cons hd tl ih =>
    by_cases h : hd.1 = k
    · simp [setKey, h, lookupKey]
    · simp [setKey, h, lookupKey, ih]

theorem lookup_setKey_other (d : JDict) (k k' : String) (v : JVal) (h : k' ≠ k) :
    lookupKey (setKey d k v) k' = lookupKey d k' := by
  induction d with
  | nil => simp [setKey, lookupKey, Ne.symm h]
  | cons hd tl ih =>
    by_cases hk : hd.1 = k
    · subst hk
      simp only [setKey, if_pos rfl, lookupKey]
      rw [if_neg (Ne.symm h), if_neg (Ne.symm h)]
    · simp only [setKey, if_neg hk, lookupKey]
      split
      · rfl
      · exact ih

theorem setKey_ne_nil (d : JDict) (k : String) (v : JVal) : setKey d k v ≠ [] := by
  cases d with
  | nil => simp [setKey]
  | cons hd tl => simp only [setKey]; split <;> simp

theorem lookup_append_left (d1 d2 : JDict) (k : String)
    (h : (lookupKey d1 k).isSome) : lookupKey (d1 ++ d2) k = lookupKey d1 k := by
  induction d1 with
  | nil => simp [lookupKey] at h
  | cons hd tl ih =>
    simp only [lookupKey, List.cons_append] at *
    split at h
    · simp_all [lookupKey]
    · simp_all [lookupKey]

theorem lookup_append_none (d1 d2 : JDict) (k : String)
    (h : lookupKey d1 k = none) : lookupKey (d1 ++ d2) k = lookupKey d2 k := by
  induction d1 with
  | nil => simp
  | cons hd tl ih =>
    simp only [lookupKey, List.cons_append] at *
    split at h
    · exact absurd h (by simp)
    · simp_all [lookupKey]

theorem lookup_setDefaultKey_other (d : JDict) (k k' : String) (v : JVal)
    (h : k' ≠ k) : lookupKey (setDefaultKey d k v) k' = lookupKey d k' := by
  unfold setDefaultKey
  split
  · rfl
  · cases hl : lookupKey d k' with
    | some v' =>
      rw [lookup_append_left _ _ _ (by simp [hl])]
      exact hl
    | none =>
      rw [lookup_append_none _ _ _ hl]
      simp only [lookupKey, if_neg (Ne.symm h)]

theorem setDefaultKey_of_isSome (d : JDict) (k : String) (v : JVal)
    (h : (lookupKey d k).isSome) : setDefaultKey d k v = d := by
  unfold setDefaultKey
  simp [h]

theorem lookup_ne_nil (d : JDict) (k : String) (v : JVal)
    (h : lookupKey d k = some v) : d ≠ [] := by
  intro hd
  subst hd
  simp [lookupKey] at h

theorem isEmpty_false_of_ne_nil {d : JDict} (h : d ≠ []) : d.isEmpty = false := by
  cases d with
  | nil => exact absurd rfl h
  | cons hd tl => rfl

/-! ## Lemmas about the state-machine accessors -/

theorem lookup_save_state (email_id : String) (e : JDict) (now k : String)
    (h1 : k ≠ "email_id") (h2 : k ≠ "updated_at") :
    lookupKey (save_state email_id e now) k = lookupKey e k := by
  unfold save_state
  rw [lookup_setKey_other _ _ _ _ h2, lookup_setDefaultKey_other _ _ _ _ h1]

theorem save_state_ne_nil (email_id : String) (e : JDict) (now : String) :
    save_state email_id e now ≠ [] :=
  setKey_ne_nil _ _ _

theorem processing_status_nil : processing_status (some []) = "pending" := rfl

theorem processing_status_congr (d1 d2 : JDict) (h1 : d1 ≠ [])
    (h : lookupKey d1 "status" = lookupKey d2 "status") :
    processing_status (some d1) = processing_status (some d2) := by
  cases d2 with
  | nil =>
    have hn : lookupKey d1 "status" = none := by rw [h]; rfl
    show processing_status (some d1) = "pending"
    simp only [processing_status]
    rw [isEmpty_false_of_ne_nil h1]
    unfold rawStatusStr
    rw [hn]
    decide
  | cons a tl =>
    simp only [processing_status]
    rw [isEmpty_false_of_ne_nil h1, isEmpty_false_of_ne_nil (by simp)]
    unfold rawStatusStr
    rw [h]

theorem ps_getD (existing : Option JDict) :
    processing_status (some (existing.getD [])) = processing_status existing := by
  cases existing <;> rfl

theorem ps_setKey_nonstatus (e : JDict) (k : String) (v : JVal)
    (hk : k ≠ "status") :
    processing_status (some (setKey e k v)) = processing_status (some e) :=
  processing_status_congr _ _ (setKey_ne_nil _ _ _)
    (lookup_setKey_other _ _ _ _ (Ne.symm hk))

theorem ps_save_state (email_id : String) (e : JDict) (now : String) :
    processing_status (some (save_state email_id e now)) = processing_status (some e) :=
  processing_status_congr _ _ (save_state_ne_nil _ _ _)
    (lookup_save_state _ _ _ _ (by decide) (by decide))

theorem rawStatusStr_some (d : JDict) (v : JVal)
    (h : lookupKey d "status" = some v) :
    rawStatusStr d = if truthy v then pyStr v else "" := by
  unfold rawStatusStr
  rw [h]

theorem ps_of_status_str (d : JDict) (s : String)
    (h : lookupKey d "status" = some (.str s)) :
    processing_status (some d) = normalizeStatus (pyStripStr s) := by
  simp only [processing_status]
  rw [isEmpty_false_of_ne_nil (lookup_ne_nil _ _ _ h), rawStatusStr_some d _ h]
  by_cases hs : s = ""
  · subst hs; rfl
  · have hb : s.isEmpty = false := by
      cases hbe : s.isEmpty
      · rfl
      · exact absurd ((String.isEmpty_iff s).1 hbe) hs
    simp [truthy, hb, pyStr]

/-! ## Claim C4 -/

/-- C4: for every input text containing at least one account/billing keyword,
`classify` returns account_support — the account/billing set is tested first
in the fixed precedence order, so hits from the bug/feature/question sets
cannot override it. -/
theorem claim_C4_account_precedence (text w : String)
    (hw : w ∈ ACCOUNT_WORDS) (hin : pyIn w text = true) :
    classify text = "account_support" := by
  have hany : ACCOUNT_WORDS.any (fun w => pyIn w text) = true :=
    List.any_eq_true.mpr ⟨w, hw, hin⟩
  simp [classify, hany]

/-- Witness for C4 at a text that also contains bug keywords. -/
theorem claim_C4_witness :
    ("billing" ∈ ACCOUNT_WORDS
      ∧ pyIn "billing" "my billing issue makes the app crash" = true
      ∧ "issue" ∈ BUG_WORDS
      ∧ pyIn "issue" "my billing issue makes the app crash" = true)
    ∧ classify "my billing issue makes the app crash" = "account_support" :=
  ⟨⟨by decide, by decide, by decide, by decide⟩,
   claim_C4_account_precedence "my billing issue makes the app crash" "billing"
     (by decide) (by decide)⟩

/-! ## Claim C6 -/

/-- C6: when the normalized processing status is not pending, the ticket
submission flow rejects with the invalid-transition outcome before any
tracker call: the create-issue request is never sent and the local state is
returned unchanged. -/
theorem claim_C6_invalid_transition_guard (email_id : String) (st : JDict)
    (tracker_status : Nat) (tracker_text : String) (tracker_json : JDict)
    (base_url now : String) (h : processing_status (some st) ≠ "pending") :
    api_process_jira email_id st tracker_status tracker_text tracker_json base_url now
      = ⟨.invalidTransition, st, false⟩ := by
  simp only [api_process_jira]
  rw [if_pos h]

/-- Witness for C6: a message whose status is ignore. -/
theorem claim_C6_witness :
    processing_status (some [("status", JVal.str "ignore")]) ≠ "pending"
    ∧ api_process_jira "m" [("status", JVal.str "ignore")] 200 ""
        [("key", JVal.str "K-1")] "https://jira.example" "T0"
        = ⟨.invalidTransition, [("status", JVal.str "ignore")], false⟩ :=
  ⟨by decide,
   claim_C6_invalid_transition_guard "m" [("status", JVal.str "ignore")] 200 ""
     [("key", JVal.str "K-1")] "https://jira.example" "T0" (by decide)⟩

/-! ## Claim C9 -/

/-- C9: `upsert_reply_draft` (modelled from the spec, see its doc comment)
stores/overwrites the `reply_draft` sub-record with language, reply,
reply_zh and the generation timestamp, and leaves both the stored `status`
and `processed_at` — and hence the normalized status — unchanged. -/
theorem claim_C9_reply_draft_frame (email_id language reply reply_zh now : String)
    (existing : Option JDict) :
    lookupKey (upsert_reply_draft email_id language reply reply_zh existing now)
        "reply_draft"
      = some (.obj [("language", .str language), ("reply", .str reply),
                    ("reply_zh", .str reply_zh), ("generated_at", .str now)])
    ∧ lookupKey (upsert_reply_draft email_id language reply reply_zh existing now)
        "status" = lookupKey (existing.getD []) "status"
    ∧ lookupKey (upsert_reply_draft email_id language reply reply_zh existing now)
        "processed_at" = lookupKey (existing.getD []) "processed_at"
    ∧ processing_status
        (some (upsert_reply_draft email_id language reply reply_zh existing now))
      = processing_status existing := by
  refine ⟨?_, ?_, ?_, ?_⟩
  · simp only [upsert_reply_draft]
    rw [lookup_save_state _ _ _ _ (by decide) (by decide), lookup_setKey_same]
  · simp only [upsert_reply_draft]
    rw [lookup_save_state _ _ _ _ (by decide) (by decide),
      lookup_setKey_other _ _ _ _ (by decide)]
  · simp only [upsert_reply_draft]
    rw [lookup_save_state _ _ _ _ (by decide) (by decide),
      lookup_setKey_other _ _ _ _ (by decide)]
  · simp only [upsert_reply_draft]
    rw [ps_save_state, ps_setKey_nonstatus _ _ _ (by decide), ps_getD]

/-! ## Claim C10 -/

/-- C10: `set_status` silently stores the canonical status pending for every
requested status outside the recognized set (after trimming) — it does not
raise and does not keep the previous stored status — and `processing_status`
reads any document whose raw status string is unrecognized (including empty
or missing, and including absent documents) as pending. -/
theorem claim_C10_unrecognized_status (email_id status reason now : String)
    (existing : Option JDict)
    (h : pyStripStr status ∉
      (["todo", "pending", "skip", "ignore", "done", "jira", "processed"] :
        List String)) :
    lookupKey (set_status email_id status reason existing now) "status"
        = some (.str "pending")
    ∧ processing_status none = "pending"
    ∧ ∀ d : JDict,
        pyStripStr (rawStatusStr d) ∉
          (["todo", "pending", "skip", "ignore", "done", "jira", "processed"] :
            List String) →
        processing_status (some d) = "pending" := by
  simp only [List.mem_cons, List.mem_nil_iff, or_false, not_or] at h
  obtain ⟨h1, h2, h3, h4, h5, h6, h7⟩ := h
  refine ⟨?_, rfl, ?_⟩
  · have hsn : setStatusNormalized (existing.getD []) (pyStripStr status) now
        = setKey (existing.getD []) "status" (.str "pending") := by
      unfold setStatusNormalized
      rw [if_neg (by tauto), if_neg (by tauto), if_neg (by tauto)]
    simp only [set_status]
    rw [lookup_save_state _ _ _ _ (by decide) (by decide)]
    split
    · rw [lookup_setKey_other _ _ _ _ (by decide), hsn, lookup_setKey_same]
    · rw [hsn, lookup_setKey_same]
  · intro d hd
    cases d with
    | nil => rfl
    | cons a tl =>
      simp only [List.mem_cons, List.mem_nil_iff, or_false, not_or] at hd
      obtain ⟨g1, g2, g3, g4, g5, g6, g7⟩ := hd
      simp only [processing_status]
      rw [isEmpty_false_of_ne_nil (by simp)]
      by_cases hempty : pyStripStr (rawStatusStr (a :: tl)) = ""
      · rw [hempty]; decide
      · simp [normalizeStatus, hempty, g1, g2, g3, g4, g5, g6, g7]

/-- Witness for C10: an unrecognized requested status and an unrecognized
stored status both read back as pending. -/
theorem claim_C10_witness :
    (pyStripStr " weird " ∉
      (["todo", "pending", "skip", "ignore", "done", "jira", "processed"] :
        List String))
    ∧ lookupKey
        (set_status "m" " weird " "" (some [("status", JVal.str "ignore")]) "T1")
        "status" = some (.str "pending")
    ∧ (pyStripStr (rawStatusStr [("status", JVal.str "odd")]) ∉
        (["todo", "pending", "skip", "ignore", "done", "jira", "processed"] :
          List String))
    ∧ processing_status (some [("status", JVal.str "odd")]) = "pending" :=
  ⟨by decide,
   (claim_C10_unrecognized_status "m" " weird " "" "T1"
     (some [("status", JVal.str "ignore")]) (by decide)).1,
   by decide,
   (claim_C10_unrecognized_status "m" " weird " "" "T1"
     (some [("status", JVal.str "ignore")]) (by decide)).2.2
     [("status", JVal.str "odd")] (by decide)⟩

/-! ## Claim C3 -/

/-- C3: `upsert_ai_result` always stores the AI sub-record; when the current
normalized status is processed the stored status is left unchanged, and
otherwise the status becomes ignore exactly when the decision is the string
"ignore" and pending for every other decision value. -/
theorem claim_C3_upsert_ai_result (email_id decision reason now : String)
    (raw existing : Option JDict) :
    lookupKey (upsert_ai_result email_id decision reason raw existing now) "ai"
        = some (aiRecord decision reason raw now)
    ∧ (processing_status existing = "processed" →
        lookupKey (upsert_ai_result email_id decision reason raw existing now)
          "status" = lookupKey (existing.getD []) "status")
    ∧ (processing_status existing ≠ "processed" →
        lookupKey (upsert_ai_result email_id decision reason raw existing now)
          "status"
          = some (.str (if decision = "ignore" then "ignore" else "pending"))) := by
  have hcur : processing_status
      (some (setKey (existing.getD []) "ai" (aiRecord decision reason raw now)))
      = processing_status existing :=
    (ps_setKey_nonstatus _ _ _ (by decide)).trans (ps_getD existing)
  simp only [upsert_ai_result]
  rw [hcur]
  by_cases hp : processing_status existing = "processed"
  · rw [if_pos hp]
    refine ⟨?_, fun _ => ?_, fun hn => absurd hp hn⟩
    · rw [lookup_save_state _ _ _ _ (by decide) (by decide), lookup_setKey_same]
    · rw [lookup_save_state _ _ _ _ (by decide) (by decide),
        lookup_setKey_other _ _ _ _ (by decide)]
  · rw [if_neg hp]
    by_cases hd : decision = "ignore"
    · rw [if_pos hd, if_pos hd]
      refine ⟨?_, fun hq => absurd hq hp, fun _ => ?_⟩
      · rw [lookup_save_state _ _ _ _ (by decide) (by decide),
          lookup_setKey_other _ _ _ _ (by decide), lookup_setKey_same]
      · rw [lookup_save_state _ _ _ _ (by decide) (by decide), lookup_setKey_same]
    · rw [if_neg hd, if_neg hd]
      refine ⟨?_, fun hq => absurd hq hp, fun _ => ?_⟩
      · rw [lookup_save_state _ _ _ _ (by decide) (by decide),
          lookup_setKey_other _ _ _ _ (by decide), lookup_setKey_same]
      · rw [lookup_save_state _ _ _ _ (by decide) (by decide), lookup_setKey_same]

/-- Witness for C3: a processed state keeps its stored status (even a legacy
alias), and a pending state follows the decision. -/
theorem claim_C3_witness :
    (processing_status (some [("status", JVal.str "done")]) = "processed"
      ∧ lookupKey
          (upsert_ai_result "m" "ignore" "r" none
            (some [("status", JVal.str "done")]) "T1") "status"
          = lookupKey [("status", JVal.str "done")] "status")
    ∧ (processing_status (some [("status", JVal.str "pending")]) ≠ "processed"
      ∧ lookupKey
          (upsert_ai_result "m" "ignore" "r" none
            (some [("status", JVal.str "pending")]) "T1") "status"
          = some (.str (if "ignore" = "ignore" then "ignore" else "pending"))) :=
  ⟨⟨by decide,
    (claim_C3_upsert_ai_result "m" "ignore" "r" "T1" none
      (some [("status", JVal.str "done")])).2.1 (by decide)⟩,
   ⟨by decide,
    (claim_C3_upsert_ai_result "m" "ignore" "r" "T1" none
      (some [("status", JVal.str "pending")])).2.2 (by decide)⟩⟩

/-! ## Claim C1 -/

/-- C1 counterexample: `mark_processed` is a processed-re-confirming write,
yet it changes an already-set `processed_at`: on a state whose
`processed_at` is T1 it stores T2. -/
theorem claim_C1_counterexample :
    lookupKey
        [("status", JVal.str "processed"),
         ("processed_at", JVal.str "2024-01-01T00:00:00Z")] "processed_at"
      = some (.str "2024-01-01T00:00:00Z")
    ∧ lookupKey
        (mark_processed "m"
          (some [("status", JVal.str "processed"),
                 ("processed_at", JVal.str "2024-01-01T00:00:00Z")])
          "2024-02-02T00:00:00Z") "processed_at"
      = some (.str "2024-02-02T00:00:00Z")
    ∧ ("2024-02-02T00:00:00Z" : String) ≠ "2024-01-01T00:00:00Z" :=
  ⟨rfl, rfl, by decide⟩

/-- C1 amended: `set_status` (for every requested value, processed-class
included) and `set_jira_link` never change an already-set `processed_at`;
`mark_processed`, however, overwrites `processed_at` unconditionally on
every call. -/
theorem claim_C1_amended (email_id status reason jira_key jira_url now : String)
    (d : JDict) (h : (lookupKey d "processed_at").isSome) :
    lookupKey (set_status email_id status reason (some d) now) "processed_at"
        = lookupKey d "processed_at"
    ∧ lookupKey (set_jira_link email_id jira_key jira_url (some d) now)
        "processed_at" = lookupKey d "processed_at"
    ∧ lookupKey (mark_processed email_id (some d) now) "processed_at"
        = some (.str now) := by
  refine ⟨?_, ?_, ?_⟩
  · have hsn : lookupKey (setStatusNormalized d (pyStripStr status) now)
        "processed_at" = lookupKey d "processed_at" := by
      unfold setStatusNormalized
      split
      · exact lookup_setKey_other _ _ _ _ (by decide)
      · split
        · exact lookup_setKey_other _ _ _ _ (by decide)
        · split
          · rw [setDefaultKey_of_isSome]
            · exact lookup_setKey_other _ _ _ _ (by decide)
            · rw [lookup_setKey_other _ _ _ _ (by decide)]
              exact h
          · exact lookup_setKey_other _ _ _ _ (by decide)
    simp only [set_status]
    rw [lookup_save_state _ _ _ _ (by decide) (by decide)]
    split
    · rw [lookup_setKey_other _ _ _ _ (by decide)]
      exact hsn
    · exact hsn
  · simp only [set_jira_link]
    rw [lookup_save_state _ _ _ _ (by decide) (by decide),
      setDefaultKey_of_isSome _ _ _ (by
        rw [lookup_setKey_other _ _ _ _ (by decide),
          lookup_setKey_other _ _ _ _ (by decide)]
        exact h),
      lookup_setKey_other _ _ _ _ (by decide),
      lookup_setKey_other _ _ _ _ (by decide)]
    rfl
  · simp only [mark_processed]
    rw [lookup_save_state _ _ _ _ (by decide) (by decide), lookup_setKey_same]

/-- Witness for C1's amended statement at a state with `processed_at` set. -/
theorem claim_C1_amended_witness :
    (lookupKey [("processed_at", JVal.str "T1")] "processed_at").isSome = true
    ∧ lookupKey
        (set_status "m" "done" "" (some [("processed_at", JVal.str "T1")]) "T2")
        "processed_at" = lookupKey [("processed_at", JVal.str "T1")] "processed_at"
    ∧ lookupKey
        (set_jira_link "m" "K-9" "https://jira.example/browse/K-9"
          (some [("processed_at", JVal.str "T1")]) "T2")
        "processed_at" = lookupKey [("processed_at", JVal.str "T1")] "processed_at"
    ∧ lookupKey (mark_processed "m" (some [("processed_at", JVal.str "T1")]) "T2")
        "processed_at" = some (.str "T2") :=
  ⟨by decide,
   (claim_C1_amended "m" "done" "" "K-9" "https://jira.example/browse/K-9" "T2"
     [("processed_at", JVal.str "T1")] (by decide)).1,
   (claim_C1_amended "m" "done" "" "K-9" "https://jira.example/browse/K-9" "T2"
     [("processed_at", JVal.str "T1")] (by decide)).2.1,
   (claim_C1_amended "m" "done" "" "K-9" "https://jira.example/browse/K-9" "T2"
     [("processed_at", JVal.str "T1")] (by decide)).2.2⟩

theorem setDefaultKey_ne_nil (e : JDict) (k : String) (v : JVal) :
    setDefaultKey e k v ≠ [] := by
  unfold setDefaultKey
  split
  · rename_i hp
    cases e with
    | nil => simp [lookupKey] at hp
    | cons a tl => simp
  · simp

theorem ps_setDefault_nonstatus (e : JDict) (k : String) (v : JVal)
    (hk : k ≠ "status") :
    processing_status (some (setDefaultKey e k v)) = processing_status (some e) :=
  processing_status_congr _ _ (setDefaultKey_ne_nil _ _ _)
    (lookup_setDefaultKey_other _ _ _ _ (Ne.symm hk))

/-! ## Claim C2 -/

/-- C2 counterexample: from the state produced by `set_jira_link` (jira key
set, status processed), `mark_ignore` moves the normalized status to ignore
while the jira key stays set — the state machine does let the status regress
after a ticket link exists. -/
theorem claim_C2_counterexample :
    processing_status
        (some (set_jira_link "m" "K-1" "https://jira.example/browse/K-1"
          (some []) "T0")) = "processed"
    ∧ lookupKey
        (mark_ignore "m"
          (some (set_jira_link "m" "K-1" "https://jira.example/browse/K-1"
            (some []) "T0")) "T1") "jira"
      = some (.obj [("key", .str "K-1"),
                    ("url", .str "https://jira.example/browse/K-1"),
                    ("created_at", .str "T0")])
    ∧ processing_status
        (some (mark_ignore "m"
          (some (set_jira_link "m" "K-1" "https://jira.example/browse/K-1"
            (some []) "T0")) "T1")) = "ignore"
    ∧ ("ignore" : String) ≠ "processed" :=
  ⟨by decide, by rfl, by decide, by decide⟩

/-- C2 amended: `set_jira_link` itself establishes the invariant — it stores
the jira sub-record and forces the normalized status to processed — and
`ingest_ai_result` never moves a processed status away; but `set_status` and
`mark_ignore` overwrite the status unconditionally, with the jira sub-record
left in place, so later manual status writes can move the status away from
processed even when jira.key is set. -/
theorem claim_C2_amended (email_id jira_key jira_url decision reason now : String)
    (existing raw : Option JDict) :
    processing_status
        (some (set_jira_link email_id jira_key jira_url existing now)) = "processed"
    ∧ lookupKey (set_jira_link email_id jira_key jira_url existing now) "jira"
        = some (.obj [("key", .str jira_key), ("url", .str jira_url),
                      ("created_at", .str now)])
    ∧ (∀ d : JDict, processing_status (some d) = "processed" →
        processing_status
          (some (upsert_ai_result email_id decision reason raw (some d) now))
          = "processed")
    ∧ (∀ d : JDict,
        lookupKey (mark_ignore email_id (some d) now) "status"
            = some (.str "ignore")
        ∧ lookupKey (mark_ignore email_id (some d) now) "jira"
            = lookupKey d "jira") := by
  refine ⟨?_, ?_, ?_, ?_⟩
  · simp only [set_jira_link]
    rw [ps_save_state, ps_setDefault_nonstatus _ _ _ (by decide),
      ps_of_status_str _ _ (lookup_setKey_same _ _ _)]
    decide
  · simp only [set_jira_link]
    rw [lookup_save_state _ _ _ _ (by decide) (by decide),
      lookup_setDefaultKey_other _ _ _ _ (by decide),
      lookup_setKey_other _ _ _ _ (by decide), lookup_setKey_same]
  · intro d hd
    have hcur : processing_status
        (some (setKey d "ai" (aiRecord decision reason raw now))) = "processed" :=
      (ps_setKey_nonstatus d "ai" _ (by decide)).trans hd
    simp only [upsert_ai_result, Option.getD]
    rw [if_pos hcur, ps_save_state]
    exact hcur
  · intro d
    constructor
    · simp only [mark_ignore, Option.getD]
      rw [lookup_save_state _ _ _ _ (by decide) (by decide), lookup_setKey_same]
    · simp only [mark_ignore, Option.getD]
      rw [lookup_save_state _ _ _ _ (by decide) (by decide),
        lookup_setKey_other _ _ _ _ (by decide)]

/-- Witness for C2's amended statement. -/
theorem claim_C2_amended_witness :
    processing_status
        (some (set_jira_link "m" "K-5" "https://jira.example/browse/K-5"
          (some []) "T0")) = "processed"
    ∧ (processing_status (some [("status", JVal.str "processed")]) = "processed"
      ∧ processing_status
          (some (upsert_ai_result "m" "ignore" "r" none
            (some [("status", JVal.str "processed")]) "T1")) = "processed")
    ∧ lookupKey (mark_ignore "m" (some [("status", JVal.str "processed")]) "T1")
        "status" = some (.str "ignore") :=
  ⟨(claim_C2_amended "m" "K-5" "https://jira.example/browse/K-5" "ignore" "r" "T0"
      (some []) none).1,
   ⟨by decide,
    (claim_C2_amended "m" "K-5" "https://jira.example/browse/K-5" "ignore" "r" "T1"
      (some []) none).2.2.1 [("status", JVal.str "processed")] (by decide)⟩,
   ((claim_C2_amended "m" "K-5" "https://jira.example/browse/K-5" "ignore" "r" "T1"
      (some []) none).2.2.2 [("status", JVal.str "processed")]).1⟩

/-! ## Claim C5 -/

theorem lookup_e3_jira (d : JDict) (V : JVal) (c p : String) :
    lookupKey
      (setKey (setKey (setKey d "email_id" V) "classification" (.str c))
        "priority" (.str p)) "jira"
      = lookupKey d "jira" := by
  rw [lookup_setKey_other _ _ _ _ (by decide),
    lookup_setKey_other _ _ _ _ (by decide),
    lookup_setKey_other _ _ _ _ (by decide)]

/-- C5: `upsert_triage_fields` replaces only classification, priority and the
ticket draft's summary/description/labels; every other top-level field of an
existing artifact (attachments included) keeps its value, a truthy existing
email_id keeps its value, and every other field of an existing `jira`
sub-dict (reporter_email, subject, received_at, snippet) keeps its value. -/
theorem claim_C5_upsert_triage_frame (email_id classification priority_value
    jira_summary jira_description : String) (jira_labels : List String)
    (d : JDict) :
    (∀ k : String,
        k ∉ (["email_id", "classification", "priority", "jira"] : List String) →
        lookupKey (upsert_triage_fields email_id classification priority_value
          jira_summary jira_description jira_labels (some d)) k = lookupKey d k)
    ∧ (∀ v : JVal, lookupKey d "email_id" = some v → truthy v = true →
        lookupKey (upsert_triage_fields email_id classification priority_value
          jira_summary jira_description jira_labels (some d)) "email_id" = some v)
    ∧ lookupKey (upsert_triage_fields email_id classification priority_value
        jira_summary jira_description jira_labels (some d)) "classification"
        = some (.str classification)
    ∧ lookupKey (upsert_triage_fields email_id classification priority_value
        jira_summary jira_description jira_labels (some d)) "priority"
        = some (.str priority_value)
    ∧ (∀ jkvs : JDict, lookupKey d "jira" = some (.obj jkvs) →
        ∃ jr : JDict,
          lookupKey (upsert_triage_fields email_id classification priority_value
            jira_summary jira_description jira_labels (some d)) "jira"
            = some (.obj jr)
          ∧ lookupKey jr "summary" = some (.str jira_summary)
          ∧ lookupKey jr "description" = some (.str jira_description)
          ∧ lookupKey jr "labels" = some (.arr (jira_labels.map .str))
          ∧ ∀ k : String,
              k ∉ (["summary", "description", "labels"] : List String) →
              lookupKey jr k = lookupKey jkvs k) := by
  simp only [upsert_triage_fields, Option.getD]
  refine ⟨?_, ?_, ?_, ?_, ?_⟩
  · intro k hk
    simp only [List.mem_cons, List.mem_nil_iff, or_false, not_or] at hk
    obtain ⟨hk1, hk2, hk3, hk4⟩ := hk
    rw [lookup_setKey_other _ _ _ _ hk4, lookup_setKey_other _ _ _ _ hk3,
      lookup_setKey_other _ _ _ _ hk2, lookup_setKey_other _ _ _ _ hk1]
  · intro v hv htr
    rw [lookup_setKey_other _ _ _ _ (by decide),
      lookup_setKey_other _ _ _ _ (by decide),
      lookup_setKey_other _ _ _ _ (by decide), lookup_setKey_same, hv]
    simp [htr]
  · rw [lookup_setKey_other _ _ _ _ (by decide),
      lookup_setKey_other _ _ _ _ (by decide), lookup_setKey_same]
  · rw [lookup_setKey_other _ _ _ _ (by decide), lookup_setKey_same]
  · intro jkvs hj
    rw [lookup_e3_jira, hj]
    refine ⟨setKey (setKey (setKey jkvs "summary" (.str jira_summary))
      "description" (.str jira_description)) "labels"
      (.arr (jira_labels.map .str)), ?_, ?_, ?_, ?_, ?_⟩
    · exact lookup_setKey_same _ _ _
    · rw [lookup_setKey_other _ _ _ _ (by decide),
        lookup_setKey_other _ _ _ _ (by decide)]
      exact lookup_setKey_same _ _ _
    · rw [lookup_setKey_other _ _ _ _ (by decide)]
      exact lookup_setKey_same _ _ _
    · exact lookup_setKey_same _ _ _
    · intro k hk
      simp only [List.mem_cons, List.mem_nil_iff, or_false, not_or] at hk
      obtain ⟨hk1, hk2, hk3⟩ := hk
      rw [lookup_setKey_other _ _ _ _ hk3, lookup_setKey_other _ _ _ _ hk2,
        lookup_setKey_other _ _ _ _ hk1]

/-- Witness for C5: attachments and the draft's reporter_email survive a
classification-only update of a concrete artifact. -/
theorem claim_C5_witness :
    ("attachments" ∉ (["email_id", "classification", "priority", "jira"] :
        List String))
    ∧ lookupKey
        (upsert_triage_fields "m1" "bug" "P1" "S" "Dsc" ["l1"]
          (some [("email_id", JVal.str "m1"),
                 ("jira", JVal.obj [("summary", JVal.str "old"),
                                    ("reporter_email", JVal.str "a@b.example")]),
                 ("attachments", JVal.arr [JVal.str "f.txt"])]))
        "attachments"
      = lookupKey [("email_id", JVal.str "m1"),
                   ("jira", JVal.obj [("summary", JVal.str "old"),
                                      ("reporter_email", JVal.str "a@b.example")]),
                   ("attachments", JVal.arr [JVal.str "f.txt"])] "attachments"
    ∧ ∃ jr : JDict,
        lookupKey
          (upsert_triage_fields "m1" "bug" "P1" "S" "Dsc" ["l1"]
            (some [("email_id", JVal.str "m1"),
                   ("jira", JVal.obj [("summary", JVal.str "old"),
                                      ("reporter_email", JVal.str "a@b.example")]),
                   ("attachments", JVal.arr [JVal.str "f.txt"])]))
          "jira" = some (.obj jr)
        ∧ lookupKey jr "reporter_email"
            = lookupKey [("summary", JVal.str "old"),
                         ("reporter_email", JVal.str "a@b.example")]
              "reporter_email" := by
  refine ⟨by decide,
    (claim_C5_upsert_triage_frame "m1" "bug" "P1" "S" "Dsc" ["l1"]
      [("email_id", JVal.str "m1"),
       ("jira", JVal.obj [("summary", JVal.str "old"),
                          ("reporter_email", JVal.str "a@b.example")]),
       ("attachments", JVal.arr [JVal.str "f.txt"])]).1 "attachments" (by decide),
    ?_⟩
  obtain ⟨jr, h1, h2, h3, h4, h5⟩ :=
    (claim_C5_upsert_triage_frame "m1" "bug" "P1" "S" "Dsc" ["l1"]
      [("email_id", JVal.str "m1"),
       ("jira", JVal.obj [("summary", JVal.str "old"),
                          ("reporter_email", JVal.str "a@b.example")]),
       ("attachments", JVal.arr [JVal.str "f.txt"])]).2.2.2.2
      [("summary", JVal.str "old"), ("reporter_email", JVal.str "a@b.example")] rfl
  exact ⟨jr, h1, h5 "reporter_email" (by decide)⟩

/-! ## Claim C7 -/

theorem occursIn_append_right (w p t : List Char) (h : occursIn w t = true) :
    occursIn w (p ++ t) = true := by
  induction p with
  | nil => simpa
  | cons c cs ih => simp [occursIn, ih]

/-- C7 counterexample: a non-success tracker response whose body contains an
sk- secret raises a `JiraError` whose message contains that secret verbatim
(and likewise for a Bearer token) — `create_issue_v2` applies no
redaction. -/
theorem claim_C7_counterexample :
    create_issue_v2 401 "invalid token sk-AAAAAAAA1234567890 rejected" []
      = .error
        "Jira create issue failed (401): invalid token sk-AAAAAAAA1234567890 rejected"
    ∧ pyIn "sk-AAAAAAAA1234567890"
        "Jira create issue failed (401): invalid token sk-AAAAAAAA1234567890 rejected"
        = true
    ∧ pyIn "Bearer abcdefgh12345678"
        (jiraCreateIssueErrorMsg 500 "denied: Bearer abcdefgh12345678") = true :=
  ⟨rfl, by decide, by decide⟩

/-- C7 amended: on every non-success tracker response the raised
ticket-submission error wraps the status code and the raw, unredacted
response body — every substring of the response body (secrets included)
appears verbatim in the error message; the `_redact_secrets` helper is used
only by the AI client, not by `create_issue_v2`. -/
theorem claim_C7_amended (status_code : Nat) (resp_text : String)
    (resp_json : JDict) (h : 400 ≤ status_code) :
    create_issue_v2 status_code resp_text resp_json
      = .error (jiraCreateIssueErrorMsg status_code resp_text)
    ∧ ∀ w : String, pyIn w resp_text = true →
        pyIn w (jiraCreateIssueErrorMsg status_code resp_text) = true := by
  constructor
  · simp [create_issue_v2, h]
  · intro w hw
    unfold jiraCreateIssueErrorMsg pyIn
    rw [String.data_append]
    exact occursIn_append_right _ _ _ hw

/-- Witness for C7's amended statement: a 403 response carrying an sk-
secret yields exactly the unredacted error and the secret occurs in it. -/
theorem claim_C7_amended_witness :
    (400 ≤ 403 ∧ pyIn "sk-LEAKED_KEY_0123456789" "denied sk-LEAKED_KEY_0123456789" = true)
    ∧ create_issue_v2 403 "denied sk-LEAKED_KEY_0123456789" []
        = .error (jiraCreateIssueErrorMsg 403 "denied sk-LEAKED_KEY_0123456789")
    ∧ pyIn "sk-LEAKED_KEY_0123456789"
        (jiraCreateIssueErrorMsg 403 "denied sk-LEAKED_KEY_0123456789") = true :=
  ⟨⟨by decide, by decide⟩,
   (claim_C7_amended 403 "denied sk-LEAKED_KEY_0123456789" [] (by decide)).1,
   (claim_C7_amended 403 "denied sk-LEAKED_KEY_0123456789" [] (by decide)).2
     "sk-LEAKED_KEY_0123456789" (by decide)⟩

/-! ## Claim C8: lemmas about stripping and brace slicing -/

theorem dropWhile_append_all {α : Type} (f : α → Bool) (p x : List α)
    (h : ∀ c ∈ p, f c = true) : (p ++ x).dropWhile f = x.dropWhile f := by
  induction p with
  | nil => rfl
  | cons c cs ih =>
    rw [List.cons_append, List.dropWhile_cons, if_pos (h c (List.mem_cons_self c cs))]
    exact ih (fun d hd => h d (List.mem_cons_of_mem c hd))

theorem dropWhile_append_stop {α : Type} (f : α → Bool) (p x : List α)
    (h : p.dropWhile f ≠ []) : (p ++ x).dropWhile f = p.dropWhile f ++ x := by
  induction p with
  | nil => exact absurd rfl h
  | cons c cs ih =>
    rw [List.dropWhile_cons] at h
    rw [List.cons_append, List.dropWhile_cons, List.dropWhile_cons]
    by_cases hf : f c
    · rw [if_pos hf] at h
      rw [if_pos hf, if_pos hf]
      exact ih h
    · rw [if_neg hf, if_neg hf]
      rfl

theorem mem_of_mem_dropWhile {α : Type} (f : α → Bool) (l : List α) (c : α)
    (h : c ∈ l.dropWhile f) : c ∈ l :=
  (List.dropWhile_sublist f).subset h

theorem mem_of_mem_pyStrip (c : Char) (t : List Char) (h : c ∈ pyStrip t) :
    c ∈ t := by
  unfold pyStrip at h
  have h1 := List.mem_reverse.mp h
  have h2 := mem_of_mem_dropWhile _ _ _ h1
  have h3 := List.mem_reverse.mp h2
  exact mem_of_mem_dropWhile _ _ _ h3

theorem pyStrip_decomp (p mid s : List Char) (hp : lbrace ∉ p) (hs : rbrace ∉ s) :
    ∃ p' s' : List Char,
      pyStrip (p ++ (lbrace :: (mid ++ [rbrace])) ++ s)
        = p' ++ (lbrace :: (mid ++ [rbrace])) ++ s'
      ∧ lbrace ∉ p' ∧ rbrace ∉ s' := by
  have hlb : isWsChar lbrace = false := by decide
  have hrb : isWsChar rbrace = false := by decide
  have hL : ∃ p' : List Char,
      (p ++ (lbrace :: (mid ++ [rbrace])) ++ s).dropWhile isWsChar
        = p' ++ (lbrace :: (mid ++ [rbrace])) ++ s ∧ lbrace ∉ p' := by
    by_cases hpd : p.dropWhile isWsChar = []
    · refine ⟨[], ?_, by simp⟩
      rw [List.append_assoc, dropWhile_append_all _ _ _
        (fun c hc => List.dropWhile_eq_nil_iff.mp hpd c hc)]
      rw [List.cons_append, List.dropWhile_cons, if_neg (by simp [hlb])]
      simp
    · refine ⟨p.dropWhile isWsChar, ?_,
        fun hmem => hp (mem_of_mem_dropWhile _ _ _ hmem)⟩
      rw [List.append_assoc, dropWhile_append_stop _ _ _ hpd, List.append_assoc]
  obtain ⟨p', hL, hp'⟩ := hL
  unfold pyStrip
  rw [hL]
  have hrev : (p' ++ (lbrace :: (mid ++ [rbrace])) ++ s).reverse
      = s.reverse ++ (rbrace :: (mid.reverse ++ [lbrace])) ++ p'.reverse := by
    simp [List.reverse_append]
  rw [hrev]
  by_cases hsd : s.reverse.dropWhile isWsChar = []
  · refine ⟨p', [], ?_, hp', by simp⟩
    rw [List.append_assoc, dropWhile_append_all _ _ _
      (fun c hc => List.dropWhile_eq_nil_iff.mp hsd c hc)]
    rw [List.cons_append, List.dropWhile_cons, if_neg (by simp [hrb])]
    simp [List.reverse_append]
  · refine ⟨p', (s.reverse.dropWhile isWsChar).reverse, ?_, hp', ?_⟩
    · rw [List.append_assoc, dropWhile_append_stop _ _ _ hsd]
      simp [List.reverse_append]
    · intro hmem
      exact hs (List.mem_reverse.mp
        (mem_of_mem_dropWhile _ _ _ (List.mem_reverse.mp hmem)))

theorem mem_of_getLast?_eq (l : List Char) (a : Char) (h : l.getLast? = some a) :
    a ∈ l := by
  obtain ⟨hne, heq⟩ :=
    List.mem_getLast?_eq_getLast (l := l) (x := a) (Option.mem_def.mpr h)
  exact heq ▸ List.getLast_mem hne

theorem slice_core (mid s' : List Char) :
    ((lbrace :: (mid ++ [rbrace])) ++ s').dropWhile (fun c => c ≠ lbrace)
      = (lbrace :: (mid ++ [rbrace])) ++ s' := by
  rw [List.cons_append, List.dropWhile_cons, if_neg (by simp)]

theorem slice_drop (p' mid s' : List Char) (hp' : lbrace ∉ p') :
    ((p' ++ (lbrace :: (mid ++ [rbrace]))) ++ s').dropWhile (fun c => c ≠ lbrace)
      = (lbrace :: (mid ++ [rbrace])) ++ s' := by
  rw [List.append_assoc, dropWhile_append_all (fun c => c ≠ lbrace) p'
    ((lbrace :: (mid ++ [rbrace])) ++ s')
    (fun c hc => decide_eq_true (fun he : c = lbrace => hp' (he ▸ hc)))]
  exact slice_core mid s'

theorem slice_rev (mid s' : List Char) (hs' : rbrace ∉ s') :
    ((((lbrace :: (mid ++ [rbrace])) ++ s').reverse).dropWhile
        (fun c => c ≠ rbrace)).reverse
      = lbrace :: (mid ++ [rbrace]) := by
  rw [show ((lbrace :: (mid ++ [rbrace])) ++ s').reverse
      = s'.reverse ++ (rbrace :: (mid.reverse ++ [lbrace])) from by
    simp [List.reverse_append]]
  rw [dropWhile_append_all (fun c => c ≠ rbrace) s'.reverse
    (rbrace :: (mid.reverse ++ [lbrace]))
    (fun c hc => decide_eq_true
      (fun he : c = rbrace => hs' (he ▸ List.mem_reverse.mp hc)))]
  rw [List.dropWhile_cons, if_neg (by simp)]
  simp [List.reverse_append]

/-- C8 amended: the adapter tolerates leading and trailing prose, but by
slicing from the first left brace to the last right brace (parsing the whole
stripped text when it starts and ends with braces), not by scanning for the
first balanced span; it raises `AiError` when the text is empty or no brace
slice exists, while an invalid slice raises a JSON decode error that is not
an `AiError`; and `analyze_email_openai_compatible` performs no
required-field validation after parsing. -/
theorem claim_C8_amended :
    (∀ p mid s : List Char, lbrace ∉ p → rbrace ∉ s →
      extract_json_from_text ((p ++ (lbrace :: (mid ++ [rbrace]))) ++ s)
        = match json_loads (lbrace :: (mid ++ [rbrace])) with
          | some v => .ok v
          | none => .error .decodeError)
    ∧ (∀ t : List Char, pyStrip t = [] →
        extract_json_from_text t = .error .emptyResponse)
    ∧ (∀ t : List Char, lbrace ∉ t → pyStrip t ≠ [] →
        extract_json_from_text t
          = .error (.notJson (String.mk ((pyStrip t).take 200)))) := by
  refine ⟨?_, ?_, ?_⟩
  · intro p mid s hp hs
    obtain ⟨p', s', ht, hp', hs'⟩ := pyStrip_decomp p mid s hp hs
    simp only [extract_json_from_text]
    rw [ht]
    by_cases hpnil : p' = []
    · subst hpnil
      simp only [List.nil_append]
      by_cases hsnil : s' = []
      · subst hsnil
        simp only [List.append_nil]
        have hcond : (lbrace :: (mid ++ [rbrace])).head? = some lbrace
            ∧ (lbrace :: (mid ++ [rbrace])).getLast? = some rbrace := by
          refine ⟨rfl, ?_⟩
          rw [show lbrace :: (mid ++ [rbrace]) = (lbrace :: mid) ++ [rbrace]
            from rfl, List.getLast?_concat]
        rw [if_neg (by simp), if_pos hcond]
      · have hcond : ¬(((lbrace :: (mid ++ [rbrace])) ++ s').head? = some lbrace
            ∧ ((lbrace :: (mid ++ [rbrace])) ++ s').getLast? = some rbrace) := by
          rintro ⟨-, h2⟩
          rw [List.getLast?_append_of_ne_nil _ hsnil] at h2
          exact hs' (mem_of_getLast?_eq _ _ h2)
        rw [if_neg (by simp), if_neg hcond, slice_core mid s',
          if_pos (by simp), slice_rev mid s' hs']
    · obtain ⟨c, p'', rfl⟩ : ∃ c p'', p' = c :: p'' := by
        cases p' with
        | nil => exact absurd rfl hpnil
        | cons c p'' => exact ⟨c, p'', rfl⟩
      have hc : c ≠ lbrace := fun he => hp' (he ▸ List.mem_cons_self c p'')
      have hcond : ¬((((c :: p'') ++ (lbrace :: (mid ++ [rbrace]))) ++ s').head?
            = some lbrace
          ∧ (((c :: p'') ++ (lbrace :: (mid ++ [rbrace]))) ++ s').getLast?
            = some rbrace) := by
        rintro ⟨h1, -⟩
        simp only [List.cons_append, List.head?_cons] at h1
        exact hc (Option.some.inj h1)
      rw [if_neg (by simp), if_neg hcond, slice_drop (c :: p'') mid s' hp',
        if_pos (by simp), slice_rev mid s' hs']
  · intro t h2
    simp only [extract_json_from_text]
    rw [h2]
    rfl
  · intro t hnb hne
    have hnb' : lbrace ∉ pyStrip t := fun hmem => hnb (mem_of_mem_pyStrip _ _ hmem)
    simp only [extract_json_from_text]
    cases hps : pyStrip t with
    | nil => exact absurd hps hne
    | cons c rest =>
      rw [hps] at hnb'
      have hc : c ≠ lbrace := fun he => hnb' (he ▸ List.mem_cons_self c rest)
      have ha : (c :: rest).dropWhile (fun c => c ≠ lbrace) = [] :=
        List.dropWhile_eq_nil_iff.mpr
          (fun x hx => decide_eq_true (fun he : x = lbrace => hnb' (he ▸ hx)))
      rw [if_neg (by simp), if_neg (by
        rintro ⟨h1, -⟩
        simp only [List.head?_cons] at h1
        exact hc (Option.some.inj h1)), ha, if_neg (by simp)]

/-- C8 counterexample: on a text holding two JSON objects separated by
prose, a JSON object can be located (the first balanced span parses), yet
the code slices from the first left brace to the LAST right brace, feeds
`json.loads` an invalid span and fails with a decode error — so the claim's
parsing rule and its failure condition are both contradicted at this
input. -/
theorem claim_C8_counterexample :
    extract_json_from_text (("x \x7b\"a\":1\x7d y \x7b\"b\":2\x7d z").data)
      = .error .decodeError
    ∧ (firstBalancedSpan (("x \x7b\"a\":1\x7d y \x7b\"b\":2\x7d z").data)).bind
        json_loads
      = some (.obj [("a", .num 1)]) :=
  ⟨rfl, rfl⟩

/-- Witness for C8's amended statement: scenario E — leading prose before a
single JSON object parses to that object. -/
theorem claim_C8_witness :
    (lbrace ∉ ("Sure! ").data ∧ rbrace ∉ ([] : List Char))
    ∧ extract_json_from_text
        ((("Sure! ").data
          ++ (lbrace ::
            ((("\"result\":\"needs action\",\"confidence\":\"high\",\"reason\":\"x\",\"signals\":[]").data)
              ++ [rbrace])))
          ++ ([] : List Char))
        = (match json_loads
            (lbrace ::
              ((("\"result\":\"needs action\",\"confidence\":\"high\",\"reason\":\"x\",\"signals\":[]").data)
                ++ [rbrace])) with
           | some v => Except.ok v
           | none => Except.error ExtractErr.decodeError)
    ∧ json_loads
        (lbrace ::
          ((("\"result\":\"needs action\",\"confidence\":\"high\",\"reason\":\"x\",\"signals\":[]").data)
            ++ [rbrace]))
        = some (.obj [("result", .str "needs action"), ("confidence", .str "high"),
                      ("reason", .str "x"), ("signals", .arr [])]) :=
  ⟨⟨by decide, by decide⟩,
   claim_C8_amended.1 (("Sure! ").data)
     (("\"result\":\"needs action\",\"confidence\":\"high\",\"reason\":\"x\",\"signals\":[]").data)
     ([] : List Char) (by decide) (by decide),
   by rfl⟩
